import Mathlib

/-!
Verification of the tower-game Blender asset pipeline
(`blender/scripts/validate_models.py` and `blender/scripts/batch_export.py`).

The scene data that Blender's `bpy` module exposes is modelled as plain
inductive data: a scene holds a list of objects (meshes, armatures, or
other types, which both validators ignore) and a list of materials.
Mesh geometry is kept at the granularity the validators inspect:
vertex count, per-polygon vertex counts, edge endpoint pairs, UV-layer
count.  Scale and Euler-rotation components are rationals (the scripts
compare them against the exact decimal tolerance 0.001).

Validation messages are f-strings in the source; each append site is
modelled by one constructor of a `Finding` datatype carrying exactly the
values interpolated into the message.
-/

namespace Tower

/-- One bone of an armature; the validator only inspects whether a bone
has a parent (`b.parent is None` picks out root bones). -/
structure Bone where
  parent : Option Nat
deriving DecidableEq, Repr

/-- A mesh object as inspected by the validators: `obj.name`, `obj.scale`,
`obj.rotation_euler`, and the mesh data `vertices` (count), `polygons`
(vertex count of each polygon), `edges` (endpoint index pairs),
`uv_layers` (count), `has_custom_normals`. -/
structure MeshObj where
  name : String
  scale : List ℚ
  rotation_euler : List ℚ
  vertices : Nat
  polygons : List Nat
  edges : List (Nat × Nat)
  uv_layers : Nat
  has_custom_normals : Bool
deriving DecidableEq, Repr

/-- An armature object: `obj.name` and its bone list. -/
structure ArmObj where
  name : String
  bones : List Bone
deriving DecidableEq, Repr

/-- A material: `mat.name` and `mat.use_nodes`. -/
structure Mat where
  name : String
  use_nodes : Bool
deriving DecidableEq, Repr

/-- An object of `bpy.data.objects`; both scripts dispatch on
`obj.type` being `"MESH"`, `"ARMATURE"`, or anything else (ignored). -/
inductive Obj where
  | mesh (m : MeshObj)
  | armature (a : ArmObj)
  | other
deriving DecidableEq, Repr

/-- The loaded scene: `bpy.data.objects` and `bpy.data.materials`. -/
structure Scene where
  objects : List Obj
  materials : List Mat
deriving DecidableEq, Repr

/-! ## String primitives

Core `String` functions such as `String.map` and `String.startsWith` do
not reduce inside the kernel, so the few string operations the scripts
use (`str.lower()`, substring membership `in`, `str.startswith`) are
given directly as character-list recursions. -/

/-- Whether `needle` is a prefix of `hay` (character lists). -/
def charsPre : List Char → List Char → Bool
  | [], _ => true
  | _ :: _, [] => false
  | a :: as, b :: bs => a == b && charsPre as bs

/-- Whether `needle` occurs as a contiguous substring of `hay`
(Python's `needle in hay` on strings). -/
def charsIn (needle : List Char) : List Char → Bool
  | [] => needle.isEmpty
  | b :: bs => charsPre needle (b :: bs) || charsIn needle bs

/-- Python `needle in hay` for strings. -/
def strIn (needle hay : String) : Bool :=
  charsIn needle.data hay.data

/-- ASCII lower-casing of one character. -/
def lowerChar (c : Char) : Char :=
  if 65 ≤ c.toNat ∧ c.toNat ≤ 90 then Char.ofNat (c.toNat + 32) else c

/-- Python `str.lower()` (ASCII case folding suffices for the table's
keywords and typical asset names). -/
def lowerStr (s : String) : String :=
  ⟨s.data.map lowerChar⟩

/-- Python `str.startswith` (character-list implementation). -/
def startsWithStr (s pre : String) : Bool :=
  charsPre pre.data s.data

/-! ## Constants of validate_models.py -/

def MAX_VERTICES_LOD0 : Nat := 100000

def MAX_BONES : Nat := 256

def EXPECTED_SCALE : List ℚ := [1, 1, 1]

def SCALE_TOLERANCE : ℚ := 1/1000

/-- One validation message.  Each constructor corresponds to one
string-append site in `validate_models.py` (constructors `scale` through
`vertexLimit`) and carries the values interpolated into that message. -/
inductive Finding where
  | scale (name : String) (axis : Char) (value : ℚ)
  | rotationWarn (name : String)
  | noUV (name : String)
  | manyUV (name : String) (count : Nat)
  | ngonWarn (name : String) (count : Nat)
  | looseWarn (name : String) (count : Int)
  | namingWarn (name : String)
  | multiRoot (name : String) (count : Nat)
  | matNodes (name : String)
  | boneLimit (name : String) (count : Nat)
  | noBones (name : String)
  | vertexLimit (total : Nat)
deriving DecidableEq, Repr

/-- Per-object summary dict appended to `report["objects"]`. -/
structure ObjectSummary where
  name : String
  vertices : Nat
  faces : Nat
  edges : Nat
deriving DecidableEq, Repr

/-- The `report["stats"]` dict. -/
structure Stats where
  total_vertices : Nat
  total_faces : Nat
  mesh_objects : Nat
  armatures : Nat
  materials : Nat
deriving DecidableEq, Repr

/-- The per-file validation report of `ModelValidator.validate_file`. -/
structure Report where
  objects : List ObjectSummary
  issues : List Finding
  warnings : List Finding
  stats : Stats
  valid : Bool
deriving DecidableEq, Repr

/-- The axis characters `"XYZ"[i]` indexed by position in the zip. -/
def AXES : List Char := ['X', 'Y', 'Z']

/-- The scale check of `_validate_mesh`: walk
`zip(obj.scale, EXPECTED_SCALE)` together with the axis letters and emit
an issue per axis whose deviation exceeds `SCALE_TOLERANCE`. -/
def scaleFindings (name : String) : List (ℚ × ℚ × Char) → List Finding
  | [] => []
  | (s, expected, axis) :: rest =>
      (if |s - expected| > SCALE_TOLERANCE then [Finding.scale name axis s] else [])
        ++ scaleFindings name rest

/-- Issues appended by `_validate_mesh`, in source order: the per-axis
scale issues, then the missing-UV issue. -/
def meshIssues (o : MeshObj) : List Finding :=
  scaleFindings o.name (o.scale.zip (EXPECTED_SCALE.zip AXES))
    ++ (if o.uv_layers = 0 then [Finding.noUV o.name] else [])

/-- The count of distinct vertex indices referenced by some edge
(the `vertex_used` set of `_validate_mesh`). -/
def usedVertexCount (o : MeshObj) : Nat :=
  ((o.edges.flatMap fun e => [e.1, e.2]).dedup).length

/-- `loose = len(mesh.vertices) - len(vertex_used)` (Python int, so the
difference is taken in ℤ). -/
def looseCount (o : MeshObj) : Int :=
  (o.vertices : Int) - (usedVertexCount o : Int)

/-- The polygons with more than 4 vertices (n-gons). -/
def ngonCount (o : MeshObj) : Nat :=
  o.polygons.countP (fun n => decide (4 < n))

/-- Warnings appended by `_validate_mesh`, in source order: unapplied
rotation, excess UV maps (the `elif` branch of the UV check), n-gons,
loose vertices, naming convention. -/
def meshWarnings (o : MeshObj) : List Finding :=
  (if o.rotation_euler.any (fun r => decide (|r| > 1/1000)) then
    [Finding.rotationWarn o.name] else [])
  ++ (if o.uv_layers = 0 then []
      else if o.uv_layers > 2 then [Finding.manyUV o.name o.uv_layers] else [])
  ++ (if ngonCount o > 0 then [Finding.ngonWarn o.name (ngonCount o)] else [])
  ++ (if looseCount o > 0 then [Finding.looseWarn o.name (looseCount o)] else [])
  ++ (if startsWithStr o.name "SM_" || startsWithStr o.name "SK_" || startsWithStr o.name "S_"
      then [] else [Finding.namingWarn o.name])

/-- `ModelValidator._validate_mesh`: update stats, append the object
summary, then append issues and warnings. -/
def validate_mesh (o : MeshObj) (r : Report) : Report :=
  { r with
    stats := { r.stats with
      mesh_objects := r.stats.mesh_objects + 1
      total_vertices := r.stats.total_vertices + o.vertices
      total_faces := r.stats.total_faces + o.polygons.length }
    objects := r.objects ++ [⟨o.name, o.vertices, o.polygons.length, o.edges.length⟩]
    issues := r.issues ++ meshIssues o
    warnings := r.warnings ++ meshWarnings o }

/-- The root bones of an armature (`b.parent is None`). -/
def rootBones (a : ArmObj) : List Bone :=
  a.bones.filter (fun b => b.parent.isNone)

/-- Issues appended by `_validate_armature`, in source order: the bone
ceiling, then the empty armature check. -/
def armIssues (a : ArmObj) : List Finding :=
  (if a.bones.length > MAX_BONES then [Finding.boneLimit a.name a.bones.length] else [])
    ++ (if a.bones.length = 0 then [Finding.noBones a.name] else [])

/-- `ModelValidator._validate_armature`. -/
def validate_armature (a : ArmObj) (r : Report) : Report :=
  { r with
    stats := { r.stats with armatures := r.stats.armatures + 1 }
    issues := r.issues ++ armIssues a
    warnings := r.warnings ++
      (if (rootBones a).length > 1 then [Finding.multiRoot a.name (rootBones a).length] else []) }

/-- The material loop of `validate_file`: count the material and warn
when it does not use nodes. -/
def validateMaterial (r : Report) (m : Mat) : Report :=
  { r with
    stats := { r.stats with materials := r.stats.materials + 1 }
    warnings := r.warnings ++ (if m.use_nodes then [] else [Finding.matNodes m.name]) }

/-- `ModelValidator.validate_file` on a loaded scene: walk the objects
(dispatching on type), walk the materials, apply the overall vertex
ceiling, and finally set `valid = (len(issues) == 0)`. -/
def validate_file (s : Scene) : Report :=
  let r0 : Report := ⟨[], [], [], ⟨0, 0, 0, 0, 0⟩, false⟩
  let r1 := s.objects.foldl
    (fun r o => match o with
      | Obj.mesh m => validate_mesh m r
      | Obj.armature a => validate_armature a r
      | Obj.other => r) r0
  let r2 := s.materials.foldl validateMaterial r1
  let r3 := { r2 with issues := r2.issues ++
    (if r2.stats.total_vertices > MAX_VERTICES_LOD0 then
      [Finding.vertexLimit r2.stats.total_vertices] else []) }
  { r3 with valid := r3.issues.length == 0 }

/-! ## validate_model of batch_export.py -/

/-- A message of `validate_model` in `batch_export.py`; one constructor
per append site, in the source's textual order. -/
inductive BFinding where
  | ngonIssue (name : String) (count : Nat)
  | noUV (name : String)
  | badScale (name : String) (scale : List ℚ)
deriving DecidableEq, Repr

/-- The `stats` dict of `validate_model`. -/
structure BStats where
  vertices : Nat
  faces : Nat
  objects : Nat
  armatures : Nat
deriving DecidableEq, Repr

/-- The dict returned by `validate_model`. -/
structure BReport where
  stats : BStats
  issues : List BFinding
  valid : Bool
deriving DecidableEq, Repr

/-- Issues appended per mesh by `validate_model`, in source order:
n-gons, missing UV map, non-uniform scale. -/
def bMeshIssues (o : MeshObj) : List BFinding :=
  (if ngonCount o > 0 then [BFinding.ngonIssue o.name (ngonCount o)] else [])
    ++ (if o.uv_layers = 0 then [BFinding.noUV o.name] else [])
    ++ (if o.scale.any (fun s => decide (|s - 1| > (1/1000 : ℚ))) then
        [BFinding.badScale o.name o.scale] else [])

/-- `validate_model` of `batch_export.py`: walk the objects, accumulate
stats and issues, and return `valid = (len(issues) == 0)`. -/
def validate_model (s : Scene) : BReport :=
  let acc := s.objects.foldl
    (fun (p : BStats × List BFinding) o => match o with
      | Obj.mesh m =>
          (⟨p.1.vertices + m.vertices, p.1.faces + m.polygons.length,
            p.1.objects + 1, p.1.armatures⟩, p.2 ++ bMeshIssues m)
      | Obj.armature _ => (⟨p.1.vertices, p.1.faces, p.1.objects, p.1.armatures + 1⟩, p.2)
      | Obj.other => p) (⟨0, 0, 0, 0⟩, [])
  ⟨acc.1, acc.2, acc.2.length == 0⟩

/-! ## Category classifier of batch_export.py -/

/-- The `ASSET_CATEGORIES` dict, kept as an ordered association list
(Python dicts iterate in insertion order). -/
def ASSET_CATEGORIES : List (String × String) :=
  [("characters", "Characters"), ("weapons", "Weapons"), ("armor", "Armor"),
   ("monsters", "Monsters"), ("environment", "Environment"), ("props", "Props"),
   ("vfx", "VFX"), ("ui", "UI")]

/-- A filesystem path reduced to the fields `get_category` reads:
`filepath.stem` and `filepath.parent.name`. -/
structure AssetPath where
  stem : String
  parentName : String
deriving DecidableEq, Repr

/-- The loop body of `get_category`: scan the table in order and return
the first display name whose keyword occurs in the lowered stem or the
lowered parent name. -/
def categoryScan (nameLower parentLower : String) : List (String × String) → String
  | [] => "Misc"
  | (key, category) :: rest =>
      if strIn key nameLower || strIn key parentLower then category
      else categoryScan nameLower parentLower rest

/-- `get_category`: lower-case `filepath.stem` and `filepath.parent.name`
and scan `ASSET_CATEGORIES` in order; default `"Misc"`. -/
def get_category (p : AssetPath) : String :=
  categoryScan (lowerStr p.stem) (lowerStr p.parentName) ASSET_CATEGORIES

/-- Specification-side rendering of the classifier contract: the display
name mapped from the first table entry whose keyword is a substring of
the lowered stem or lowered parent name, else `"Misc"`.  Stated with
`List.find?` to be compared against the loop `categoryScan`. -/
def classifySpec (p : AssetPath) : String :=
  match ASSET_CATEGORIES.find?
    (fun e => strIn e.1 (lowerStr p.stem) || strIn e.1 (lowerStr p.parentName)) with
  | some e => e.2
  | none => "Misc"

/-! ## Batch orchestrator of batch_export.py

The per-file filesystem and exporter behaviour visible to `main` is
collected in a `FileEntry`: the path components, whether the candidate
FBX output exists and the two modification timestamps, what
`bpy.ops.wm.open_mainfile` yields (`none` models a raised exception),
and whether `bpy.ops.export_scene.fbx` succeeds. -/

/-- One discovered `.blend` file together with the environment behaviour
`main` observes for it. -/
structure FileEntry where
  stem : String
  parentName : String
  outExists : Bool
  srcMtime : ℚ
  outMtime : ℚ
  loadResult : Option Scene
  exportOk : Bool
deriving DecidableEq, Repr

/-- The candidate output path `EXPORT_DIR / category / (stem + ".fbx")`,
relative to the export root. -/
def exportPathOf (f : FileEntry) : String :=
  get_category ⟨f.stem, f.parentName⟩ ++ "/" ++ f.stem ++ ".fbx"

/-- The skip test of `main`: `export_path.exists()` and
`fbx_mtime > blend_mtime`. -/
def skipCond (f : FileEntry) : Bool :=
  f.outExists && decide (f.outMtime > f.srcMtime)

/-- The staleness decision: the file needs export exactly when `main`
does not skip it. -/
def needs_export (outExists : Bool) (srcMtime outMtime : ℚ) : Bool :=
  !(outExists && decide (outMtime > srcMtime))

/-- Modelled from the spec: the Staleness Detector contract as the spec
words it — true iff the output is missing or `source_mtime > output_mtime`,
with ties (equal timestamps) favouring skipping.  Kept separate from
`needs_export` (the code's gate) for comparison. -/
def specNeedsExport (outExists : Bool) (srcMtime outMtime : ℚ) : Bool :=
  !outExists || decide (srcMtime > outMtime)

/-- `export_blend_to_fbx`: clean the scene, open the file (an exception
is caught and yields `False`), ensure the output directory, run the FBX
exporter (an exception likewise yields `False`). -/
def export_blend_to_fbx (f : FileEntry) : Bool :=
  match f.loadResult with
  | none => false
  | some _ => f.exportOk

/-- The operations `main` can perform on a file, for tracing which calls
actually happen in the batch path. -/
inductive Ev where
  | cleanScene
  | openMainfile
  | ensureDir
  | exportFBX
  | runValidator
deriving DecidableEq, Repr

/-- The calls `export_blend_to_fbx` performs, in order; after a failed
`open_mainfile` the exception skips the rest of the `try` block. -/
def exportEvents (f : FileEntry) : List Ev :=
  [Ev.cleanScene, Ev.openMainfile] ++
    (match f.loadResult with
     | none => []
     | some _ => [Ev.ensureDir, Ev.exportFBX])

/-- The calls `main` performs for one file: nothing after the staleness
skip, otherwise exactly the calls of `export_blend_to_fbx`.  `main`
never calls `validate_model`. -/
def fileEvents (f : FileEntry) : List Ev :=
  if skipCond f then [] else exportEvents f

/-- The outcome `main` records for one file. -/
inductive Outcome where
  | exported
  | failed
  | skipped
deriving DecidableEq, Repr

/-- The per-file outcome: skip when the output is strictly newer,
otherwise exported or failed according to `export_blend_to_fbx`. -/
def stepOutcome (f : FileEntry) : Outcome :=
  if skipCond f then Outcome.skipped
  else if export_blend_to_fbx f then Outcome.exported
  else Outcome.failed

/-- The `results` accumulator of `main`. -/
structure Results where
  exported : Nat
  failed : Nat
  skipped : Nat
  files : List String
deriving DecidableEq, Repr

/-- The loop body of `main`: bump the matching counter and, on export,
append the output path. -/
def step (r : Results) (f : FileEntry) : Results :=
  if skipCond f then { r with skipped := r.skipped + 1 }
  else if export_blend_to_fbx f then
    { r with exported := r.exported + 1, files := r.files ++ [exportPathOf f] }
  else { r with failed := r.failed + 1 }

/-- The batch loop of `main` over the discovered files. -/
def run_batch (fs : List FileEntry) : Results :=
  fs.foldl step ⟨0, 0, 0, []⟩

/-! ## Concrete scenes and files used in closed statements -/

/-- A scene holding a single mesh object. -/
def oneMeshScene (m : MeshObj) : Scene := ⟨[Obj.mesh m], []⟩

/-- A scene holding a single armature object. -/
def oneArmScene (a : ArmObj) : Scene := ⟨[Obj.armature a], []⟩

/-- A unit-scale mesh with an unapplied rotation: produces a warning and
no issue. -/
def warnOnlyScene : Scene :=
  oneMeshScene ⟨"M", [1, 1, 1], [1, 0, 0], 0, [], [], 1, true⟩

/-- A mesh with no UV layers: produces the missing-UV issue. -/
def sceneNoUV : Scene :=
  oneMeshScene ⟨"M", [1, 1, 1], [0, 0, 0], 0, [], [], 0, false⟩

/-- A scene with no objects but one non-node material. -/
def matOnlyScene : Scene := ⟨[], [⟨"m", false⟩]⟩

/-- A file that loads a scene carrying a validation issue and would
export fine. -/
def f0 : FileEntry :=
  ⟨"sword_weapons", "models", false, 0, 0, some sceneNoUV, true⟩

/-! ## Lemmas -/

theorem categoryScan_eq_find (n p : String) (t : List (String × String)) :
    categoryScan n p t =
      (match t.find? (fun e => strIn e.1 n || strIn e.1 p) with
       | some e => e.2
       | none => "Misc") := by
  induction t with
  | nil => rfl
  | cons e rest ih =>
    obtain ⟨key, category⟩ := e
    cases h : strIn key n || strIn key p
    · rw [List.find?_cons_of_neg _ (by simp [h]), ← ih]
      simp [categoryScan, h]
    · rw [List.find?_cons_of_pos _ (by simp [h])]
      simp [categoryScan, h]

/-- The issue list of a report on a one-mesh scene: the per-mesh issues
followed by the (here vacuous unless the mesh alone crosses it) overall
vertex ceiling. -/
theorem validate_file_oneMesh_issues (m : MeshObj) :
    (validate_file (oneMeshScene m)).issues =
      meshIssues m ++
        (if m.vertices > MAX_VERTICES_LOD0 then [Finding.vertexLimit m.vertices] else []) := by
  simp [validate_file, oneMeshScene, validate_mesh]

/-- The warning list of a report on a one-mesh scene. -/
theorem validate_file_oneMesh_warnings (m : MeshObj) :
    (validate_file (oneMeshScene m)).warnings = meshWarnings m := by
  simp [validate_file, oneMeshScene, validate_mesh]

/-- The issue list of a report on a one-armature scene. -/
theorem validate_file_oneArm_issues (a : ArmObj) :
    (validate_file (oneArmScene a)).issues = armIssues a := by
  simp [validate_file, oneArmScene, validate_armature, MAX_VERTICES_LOD0]

/-- `valid` is the final emptiness test of the issue list. -/
theorem validate_file_valid_def (s : Scene) :
    (validate_file s).valid = ((validate_file s).issues.length == 0) := rfl

theorem needs_export_eq_not_skip (f : FileEntry) :
    needs_export f.outExists f.srcMtime f.outMtime = !skipCond f := rfl

/-! ## Claims -/

/-- C4: `get_category` returns the display name mapped from the first
entry of the ordered keyword table whose keyword is a substring of the
lower-cased stem or of the lower-cased parent directory name, and
`"Misc"` when none matches; it is a total Lean function, hence pure and
never failing.  The closed conjuncts exercise the table-order tie-break
on a path matching two keywords at once. -/
theorem c4_classifier_first_match (p : AssetPath) :
    get_category p = classifySpec p
    ∧ get_category ⟨"weapons_armor", "x"⟩ = "Weapons"
    ∧ get_category ⟨"armor", "characters"⟩ = "Characters"
    ∧ get_category ⟨"blob", "stuff"⟩ = "Misc" := by
  refine ⟨?_, by decide, by decide, by decide⟩
  unfold get_category classifySpec
  exact categoryScan_eq_find _ _ _

/-- C2 counterexample: at equal modification timestamps (output exists,
`src_mtime = out_mtime = 5`) the code's gate `needs_export` returns
true — the file is re-exported, not skipped — while the spec's tie rule
(`specNeedsExport`) returns false. -/
theorem c2_tie_counterexample :
    needs_export true 5 5 = true
    ∧ specNeedsExport true 5 5 = false
    ∧ stepOutcome ⟨"m", "p", true, 5, 5, none, false⟩ ≠ Outcome.skipped := by
  decide

/-- C2 amended: `needs_export` is true iff the output path does not
exist or `source_mtime ≥ output_mtime`; equal timestamps therefore yield
true and the file is re-exported.  When `needs_export` is false the file
is recorded as skipped and no scene-loading call happens. -/
theorem c2_staleness_gate (ex : Bool) (s o : ℚ) (f : FileEntry) :
    (needs_export ex s o = true ↔ (ex = false ∨ o ≤ s))
    ∧ (stepOutcome f = Outcome.skipped
        ↔ needs_export f.outExists f.srcMtime f.outMtime = false)
    ∧ (needs_export f.outExists f.srcMtime f.outMtime = false → fileEvents f = []) := by
  refine ⟨?_, ?_, ?_⟩
  · cases ex <;> simp [needs_export, le_iff_lt_or_eq, not_lt, le_of_lt]
  · rw [needs_export_eq_not_skip]
    cases hs : skipCond f
    · cases he : export_blend_to_fbx f <;> simp [stepOutcome, hs, he]
    · simp [stepOutcome, hs]
  · rw [needs_export_eq_not_skip]
    cases hs : skipCond f <;> simp [fileEvents, hs]

/-- C2 amended, witnessed at a file whose output is strictly newer than
its source: the gate says skip and no load happens. -/
theorem c2_staleness_gate_witness :
    fileEvents ⟨"m", "p", true, 4, 5, none, false⟩ = [] :=
  (c2_staleness_gate true 4 5 ⟨"m", "p", true, 4, 5, none, false⟩).2.2 (by decide)

/-- C1: for every scene, the `valid` field of the report equals the
emptiness of the issue list, for both validators; it is set from the
issue list alone, so a report with empty issues and a non-empty warning
list (the closed conjuncts) has `valid = true`. -/
theorem c1_valid_iff_no_issues (s : Scene) :
    ((validate_file s).valid = true ↔ (validate_file s).issues = [])
    ∧ ((validate_model s).valid = true ↔ (validate_model s).issues = [])
    ∧ (validate_file warnOnlyScene).valid = true
    ∧ (validate_file warnOnlyScene).warnings ≠ [] := by
  refine ⟨?_, ?_, ?_, ?_⟩
  · simp [validate_file, List.length_eq_zero]
  · simp [validate_model, List.length_eq_zero]
  · unfold warnOnlyScene
    rw [validate_file_valid_def, validate_file_oneMesh_issues]
    norm_num [meshIssues, scaleFindings, EXPECTED_SCALE, AXES, MAX_VERTICES_LOD0,
      SCALE_TOLERANCE]
  · unfold warnOnlyScene
    rw [validate_file_oneMesh_warnings]
    norm_num [meshWarnings, SCALE_TOLERANCE]
    exact List.cons_ne_nil _ _

/-- Anything that is not a per-axis scale finding for `name` is absent
from the scale check's output. -/
theorem not_mem_scaleFindings (x : Finding) (name : String) (l : List (ℚ × ℚ × Char))
    (hx : ∀ a v, x ≠ Finding.scale name a v) : x ∉ scaleFindings name l := by
  induction l with
  | nil => simp [scaleFindings]
  | cons t rest ih =>
    obtain ⟨s, e, a⟩ := t
    simp only [scaleFindings]
    intro hmem
    rcases List.mem_append.mp hmem with h | h
    · by_cases hc : |s - e| > SCALE_TOLERANCE
      · rw [if_pos hc] at h
        exact hx a s (List.mem_singleton.mp h)
      · rw [if_neg hc] at h
        exact absurd h (List.not_mem_nil x)
    · exact ih h

/-- C5: the validator emits the per-axis scale issue exactly when that
axis deviates from 1.0 by more than the 0.001 tolerance; in particular
(closed conjuncts) a component of 1.0011 yields the issue and a
component of 1.0009 yields a clean issue list. -/
theorem c5_scale_threshold (name : String) (sx sy sz : ℚ) (rot : List ℚ)
    (v : Nat) (polys : List Nat) (edges : List (Nat × Nat)) (uv : Nat) (hcn : Bool) :
    (Finding.scale name 'X' sx ∈
        (validate_file (oneMeshScene ⟨name, [sx, sy, sz], rot, v, polys, edges, uv, hcn⟩)).issues
      ↔ |sx - 1| > SCALE_TOLERANCE)
    ∧ (Finding.scale name 'Y' sy ∈
        (validate_file (oneMeshScene ⟨name, [sx, sy, sz], rot, v, polys, edges, uv, hcn⟩)).issues
      ↔ |sy - 1| > SCALE_TOLERANCE)
    ∧ (Finding.scale name 'Z' sz ∈
        (validate_file (oneMeshScene ⟨name, [sx, sy, sz], rot, v, polys, edges, uv, hcn⟩)).issues
      ↔ |sz - 1| > SCALE_TOLERANCE)
    ∧ Finding.scale "M" 'X' (10011/10000) ∈
        (validate_file (oneMeshScene ⟨"M", [10011/10000, 1, 1], [], 0, [], [], 1, true⟩)).issues
    ∧ (validate_file (oneMeshScene ⟨"M", [10009/10000, 1, 1], [], 0, [], [], 1, true⟩)).issues
        = [] := by
  have hxy : ('X' : Char) ≠ 'Y' := by decide
  have hxz : ('X' : Char) ≠ 'Z' := by decide
  have hyz : ('Y' : Char) ≠ 'Z' := by decide
  have hz : ∀ a b c : ℚ,
      ([a, b, c].zip (EXPECTED_SCALE.zip AXES)) = [(a, 1, 'X'), (b, 1, 'Y'), (c, 1, 'Z')] :=
    fun a b c => rfl
  refine ⟨?_, ?_, ?_, ?_, ?_⟩
  · rw [validate_file_oneMesh_issues]
    simp only [meshIssues, hz, scaleFindings, List.append_nil, List.mem_append]
    split_ifs <;> simp_all
  · rw [validate_file_oneMesh_issues]
    simp only [meshIssues, hz, scaleFindings, List.append_nil, List.mem_append]
    split_ifs <;> simp_all
  · rw [validate_file_oneMesh_issues]
    simp only [meshIssues, hz, scaleFindings, List.append_nil, List.mem_append]
    split_ifs <;> simp_all
  · rw [validate_file_oneMesh_issues]
    simp only [meshIssues, hz, scaleFindings, List.append_nil, List.mem_append]
    rw [show (10011/10000 : ℚ) - 1 = 11/10000 by norm_num,
      abs_of_pos (show (0:ℚ) < 11/10000 by norm_num)]
    norm_num [SCALE_TOLERANCE, MAX_VERTICES_LOD0]
  · rw [validate_file_oneMesh_issues]
    simp only [meshIssues, hz, scaleFindings, List.append_nil]
    rw [show (10009/10000 : ℚ) - 1 = 9/10000 by norm_num,
      abs_of_pos (show (0:ℚ) < 9/10000 by norm_num)]
    norm_num [SCALE_TOLERANCE, MAX_VERTICES_LOD0]

/-- C6: an armature yields the bone-ceiling issue (carrying its bone
count) exactly when the count exceeds 256, and the empty-armature issue
exactly when the count is zero; 256 bones (closed conjunct) yield a
clean issue list, 257 yield exactly the ceiling issue naming 257. -/
theorem c6_bone_limits (name : String) (bones : List Bone) :
    (Finding.boneLimit name bones.length ∈
        (validate_file (oneArmScene ⟨name, bones⟩)).issues ↔ bones.length > 256)
    ∧ (Finding.noBones name ∈
        (validate_file (oneArmScene ⟨name, bones⟩)).issues ↔ bones.length = 0)
    ∧ (validate_file (oneArmScene ⟨"A", List.replicate 256 ⟨none⟩⟩)).issues = []
    ∧ (validate_file (oneArmScene ⟨"A", List.replicate 257 ⟨none⟩⟩)).issues
        = [Finding.boneLimit "A" 257] := by
  refine ⟨?_, ?_, ?_, ?_⟩
  · rw [validate_file_oneArm_issues]
    simp only [armIssues, MAX_BONES, List.mem_append]
    split_ifs <;> simp_all
  · rw [validate_file_oneArm_issues]
    simp only [armIssues, MAX_BONES, List.mem_append]
    split_ifs <;> simp_all
  · rw [validate_file_oneArm_issues]
    simp only [armIssues, List.length_replicate, MAX_BONES]
    norm_num
  · rw [validate_file_oneArm_issues]
    simp only [armIssues, List.length_replicate, MAX_BONES]
    norm_num

/-- C7: a mesh with zero UV layers yields the missing-UV issue whatever
its other properties; more than 2 UV layers yield the excess-UV warning,
which is never an issue. -/
theorem c7_uv_rules (name : String) (scale rot : List ℚ) (v : Nat)
    (polys : List Nat) (edges : List (Nat × Nat)) (uv : Nat) (hcn : Bool) :
    (Finding.noUV name ∈
        (validate_file (oneMeshScene ⟨name, scale, rot, v, polys, edges, uv, hcn⟩)).issues
      ↔ uv = 0)
    ∧ (Finding.manyUV name uv ∈
        (validate_file (oneMeshScene ⟨name, scale, rot, v, polys, edges, uv, hcn⟩)).warnings
      ↔ uv > 2)
    ∧ ∀ n, Finding.manyUV name n ∉
        (validate_file (oneMeshScene ⟨name, scale, rot, v, polys, edges, uv, hcn⟩)).issues := by
  refine ⟨?_, ?_, ?_⟩
  · rw [validate_file_oneMesh_issues]
    have hs := not_mem_scaleFindings (Finding.noUV name) name
      (scale.zip (EXPECTED_SCALE.zip AXES)) (by intro a w h; cases h)
    simp only [meshIssues, List.mem_append]
    split_ifs <;> simp_all
  · rw [validate_file_oneMesh_warnings]
    simp only [meshWarnings, List.mem_append]
    split_ifs <;> simp_all
  · intro n
    rw [validate_file_oneMesh_issues]
    have hs := not_mem_scaleFindings (Finding.manyUV name n) name
      (scale.zip (EXPECTED_SCALE.zip AXES)) (by intro a w h; cases h)
    simp only [meshIssues, List.mem_append]
    split_ifs <;> simp_all

/-- Walking an object of any type other than mesh or armature changes
nothing in the report. -/
theorem validate_file_cons_other (rest : List Obj) (mats : List Mat) :
    validate_file ⟨Obj.other :: rest, mats⟩ = validate_file ⟨rest, mats⟩ := by
  simp [validate_file]

/-- C8 counterexample: a scene with zero mesh objects and zero armature
objects but one material not using nodes has a non-empty warning list
and a material count of 1, so the claim's "empty warnings, all
statistics zero" fails on it. -/
theorem c8_counterexample :
    (validate_file matOnlyScene).stats.mesh_objects = 0
    ∧ (validate_file matOnlyScene).stats.armatures = 0
    ∧ ¬((validate_file matOnlyScene).warnings = []
        ∧ (validate_file matOnlyScene).stats.materials = 0) := by
  decide

/-- C8 amended: a scene with zero meshes, zero armatures, and zero
materials produces a report with empty objects, empty issues, empty
warnings, all five statistics zero, and `valid = true`. -/
theorem c8_empty_scene (objs : List Obj) (h : ∀ o ∈ objs, o = Obj.other) :
    validate_file ⟨objs, []⟩ = ⟨[], [], [], ⟨0, 0, 0, 0, 0⟩, true⟩ := by
  induction objs with
  | nil => decide
  | cons o rest ih =>
    have ho : o = Obj.other := h o (List.mem_cons_self o rest)
    subst ho
    rw [validate_file_cons_other]
    exact ih (fun o hmem => h o (List.mem_cons_of_mem _ hmem))

/-- C8 amended, witnessed on the one-empty-object scene. -/
theorem c8_empty_scene_witness :
    validate_file ⟨[Obj.other], []⟩ = ⟨[], [], [], ⟨0, 0, 0, 0, 0⟩, true⟩ :=
  c8_empty_scene [Obj.other] (by simp)

/-- C3 counterexample: a non-skipped file whose scene loads fine and
carries a validation issue (a mesh without UV layers): the batch path
performs no validator call at all — `main` never invokes
`validate_model` — yet attempts the export and records `exported`. -/
theorem c3_counterexample :
    (validate_file sceneNoUV).issues ≠ []
    ∧ skipCond f0 = false
    ∧ f0.loadResult = some sceneNoUV
    ∧ Ev.runValidator ∉ fileEvents f0
    ∧ Ev.exportFBX ∈ fileEvents f0
    ∧ stepOutcome f0 = Outcome.exported := by
  refine ⟨?_, by decide, rfl, by decide, by decide, by decide⟩
  unfold sceneNoUV
  rw [validate_file_oneMesh_issues]
  norm_num [meshIssues, scaleFindings, EXPECTED_SCALE, AXES, SCALE_TOLERANCE,
    MAX_VERTICES_LOD0, List.zip_cons_cons]

/-- C3 amended: for every file not skipped by the staleness gate whose
scene loads successfully, export is attempted unconditionally — the
outcome depends only on the exporter, and no validator call occurs in
the batch path (the scene's content, issues included, is never
consulted). -/
theorem c3_export_unconditional (f : FileEntry) (s : Scene)
    (hskip : skipCond f = false) (hload : f.loadResult = some s) :
    Ev.exportFBX ∈ fileEvents f
    ∧ Ev.runValidator ∉ fileEvents f
    ∧ stepOutcome f = (if f.exportOk then Outcome.exported else Outcome.failed) := by
  refine ⟨?_, ?_, ?_⟩
  · simp [fileEvents, hskip, exportEvents, hload]
  · simp [fileEvents, hskip, exportEvents, hload]
  · simp only [stepOutcome, export_blend_to_fbx, hskip, hload]
    cases f.exportOk <;> simp

/-- C3 amended, witnessed on a file whose loaded scene has an issue. -/
theorem c3_export_unconditional_witness :
    Ev.exportFBX ∈ fileEvents f0
    ∧ Ev.runValidator ∉ fileEvents f0
    ∧ stepOutcome f0 = (if f0.exportOk then Outcome.exported else Outcome.failed) :=
  c3_export_unconditional f0 sceneNoUV (by decide) rfl

/-- Folding the batch loop from an arbitrary accumulator splits into the
accumulator plus the run started from zero. -/
theorem foldl_step_shift (fs : List FileEntry) (r : Results) :
    fs.foldl step r =
      ⟨r.exported + (run_batch fs).exported, r.failed + (run_batch fs).failed,
       r.skipped + (run_batch fs).skipped, r.files ++ (run_batch fs).files⟩ := by
  induction fs generalizing r with
  | nil => simp [run_batch]
  | cons f rest ih =>
    have h1 : (f :: rest).foldl step r = rest.foldl step (step r f) := rfl
    have h2 : run_batch (f :: rest) = rest.foldl step (step ⟨0, 0, 0, []⟩ f) := rfl
    rw [h1, ih (step r f), h2, ih (step ⟨0, 0, 0, []⟩ f)]
    cases hs : skipCond f
    · cases he : export_blend_to_fbx f <;>
        simp [step, hs, he, Nat.add_assoc, List.append_assoc]
    · simp [step, hs, Nat.add_assoc]

/-- C10: each discovered file contributes exactly one of the three
outcomes — `exported + failed + skipped` equals the number of files —
and the recorded output-path list has exactly `exported` entries. -/
theorem c10_summary_invariant (fs : List FileEntry) :
    (run_batch fs).exported + (run_batch fs).failed + (run_batch fs).skipped = fs.length
    ∧ (run_batch fs).files.length = (run_batch fs).exported := by
  induction fs with
  | nil => simp [run_batch]
  | cons f rest ih =>
    obtain ⟨ih1, ih2⟩ := ih
    have h2 : run_batch (f :: rest) = rest.foldl step (step ⟨0, 0, 0, []⟩ f) := rfl
    rw [h2, foldl_step_shift rest (step ⟨0, 0, 0, []⟩ f)]
    cases hs : skipCond f
    · cases he : export_blend_to_fbx f <;>
        (simp [step, hs, he]; constructor <;> omega)
    · simp [step, hs]
      constructor <;> omega

/-- C9: a file that fails to load or to export is recorded as exactly
one `failed` outcome, and the rest of the batch is unaffected — the
totals over `pre ++ [f] ++ suf` are the totals of `pre` and `suf` plus
the one failure, and the output-path list does not mention `f`. -/
theorem c9_per_file_failure_isolated (pre suf : List FileEntry) (f : FileEntry)
    (hskip : skipCond f = false)
    (hfail : f.loadResult = none ∨ f.exportOk = false) :
    stepOutcome f = Outcome.failed
    ∧ run_batch (pre ++ f :: suf) =
        ⟨(run_batch pre).exported + (run_batch suf).exported,
         (run_batch pre).failed + 1 + (run_batch suf).failed,
         (run_batch pre).skipped + (run_batch suf).skipped,
         (run_batch pre).files ++ (run_batch suf).files⟩ := by
  have hebf : export_blend_to_fbx f = false := by
    rcases hfail with h | h
    · simp [export_blend_to_fbx, h]
    · cases hl : f.loadResult <;> simp [export_blend_to_fbx, hl, h]
  refine ⟨by simp [stepOutcome, hskip, hebf], ?_⟩
  have h1 : run_batch (pre ++ f :: suf) = (f :: suf).foldl step (run_batch pre) := by
    simp [run_batch, List.foldl_append]
  have h2 : (f :: suf).foldl step (run_batch pre) = suf.foldl step (step (run_batch pre) f) :=
    rfl
  rw [h1, h2, foldl_step_shift suf (step (run_batch pre) f)]
  simp [step, hskip, hebf]

/-- The scene of a file that loads and validates cleanly. -/
def emptyScene : Scene := ⟨[], []⟩

/-- Fixture files for the batch-run witnesses. -/
def fOkA : FileEntry := ⟨"sword_weapons", "w", false, 0, 0, some emptyScene, true⟩

def fBad : FileEntry := ⟨"hero", "characters", false, 0, 0, none, true⟩

def fOkC : FileEntry := ⟨"blob", "b", false, 0, 0, some emptyScene, true⟩

/-- C9, witnessed on a three-file batch whose middle file fails to
load. -/
theorem c9_per_file_failure_isolated_witness :
    stepOutcome fBad = Outcome.failed
    ∧ run_batch ([fOkA] ++ fBad :: [fOkC]) =
        ⟨(run_batch [fOkA]).exported + (run_batch [fOkC]).exported,
         (run_batch [fOkA]).failed + 1 + (run_batch [fOkC]).failed,
         (run_batch [fOkA]).skipped + (run_batch [fOkC]).skipped,
         (run_batch [fOkA]).files ++ (run_batch [fOkC]).files⟩ :=
  c9_per_file_failure_isolated [fOkA] [fOkC] fBad (by decide) (Or.inl rfl)

end Tower
